import Mathlib

/-
Verification development for the orchestration layer of a web-scraper CLI
(source: src/web_scraper_cli/main.py).  The Python module shells out to an
external Node.js scraper, loads a JSON results file written by the
subprocess, optionally moves downloaded artifacts to an output directory,
and renders a summary.

The shallow embedding models:
* process environments as association lists (`build_env` mirrors the
  `env = os.environ.copy(); env["DOWNLOAD"] = "true"; ...` block);
* the scraper downloads directory as a list of named entries and the
  relocation loop of `move_downloads_to_output`;
* parsed JSON values (`JValue`, with Python truthiness and `len`
  semantics) and the summary computed by `display_results`;
* the effectful pipeline (`install_npm_dependencies`, `run_scraper`,
  `scrape`) as functions of an explicit `World` record describing the
  outcomes of all external effects (subprocess runs, filesystem contents),
  returning traces that record the subprocess calls made, console
  messages, displayed data and the exit status.
-/

namespace WebScraperCLI

/-! ### Process environments -/

/-- Python dict assignment `env[k] = v` on an association list: replaces the
binding for `k` if present, otherwise appends it. -/
def setVar : List (String × String) → String → String → List (String × String)
  | [], k, v => [(k, v)]
  | (k', v') :: rest, k, v =>
    if k' = k then (k, v) :: rest else (k', v') :: setVar rest k v

/-- Child environment built at the top of `run_scraper`: a copy of the parent
environment, with `DOWNLOAD` set to `"true"` when the download flag is
requested, and then `DEBUG` set to `"true"` when the debug flag is
requested. -/
def build_env (env : List (String × String)) (download debug : Bool) :
    List (String × String) :=
  let env1 := if download then setVar env "DOWNLOAD" "true" else env
  if debug then setVar env1 "DEBUG" "true" else env1

/-! ### Filesystem model and the relocation loop -/

/-- A directory entry of the scraper downloads directory: a name plus whether
the entry is a regular file (Python `file.is_file()`). -/
structure Entry where
  name : String
  isFile : Bool
deriving DecidableEq, Repr

/-- The fixed exclusion set of `move_downloads_to_output`:
`file.name in ("scrape-results.json", "page-screenshot.png")`. -/
def excludedName (n : String) : Bool :=
  n == "scrape-results.json" || n == "page-screenshot.png"

/-- Relevant filesystem state: the set of existing directories (as component
lists) and the entries of the scraper downloads directory. -/
structure FS where
  dirs : List (List String)
  downloads : List Entry
deriving DecidableEq, Repr

/-- All ancestor paths of a path, the path itself included; these are the
directories created by `output_dir.mkdir(parents=True, exist_ok=True)`. -/
def ancestorDirs : List String → List (List String)
  | [] => [[]]
  | x :: xs => [] :: (ancestorDirs xs).map (x :: ·)

/-- The `for file in source_dir.iterdir()` loop of
`move_downloads_to_output`: skips entries whose name is excluded, moves each
remaining regular file into the output directory (which must exist for the
move to succeed), and accumulates the destination paths in enumeration
order.  Returns `none` when a move fails because the output directory does
not exist, mirroring the exception `shutil.move` would raise. -/
def moveLoop (dirs : List (List String)) (outputDir : List String) :
    List Entry → Option (List Entry × List (List String))
  | [] => some ([], [])
  | e :: rest =>
    if excludedName e.name then
      (moveLoop dirs outputDir rest).map fun p => (e :: p.1, p.2)
    else if e.isFile then
      if outputDir ∈ dirs then
        (moveLoop dirs outputDir rest).map fun p =>
          (p.1, (outputDir ++ [e.name]) :: p.2)
      else
        none
    else
      (moveLoop dirs outputDir rest).map fun p => (e :: p.1, p.2)

/-- Embedding of `move_downloads_to_output(output_dir)`: first creates the
output directory and all its parents (`mkdir(parents=True, exist_ok=True)`),
then runs the move loop over the downloads directory.  Returns the updated
filesystem and the list of final destination paths (`moved_files`). -/
def move_downloads_to_output (outputDir : List String) (fs : FS) :
    Option (FS × List (List String)) :=
  let dirs' := ancestorDirs outputDir ++ fs.dirs
  (moveLoop dirs' outputDir fs.downloads).map fun p =>
    ({ dirs := dirs', downloads := p.1 }, p.2)

/-- Names of the entries a run of the relocation loop moves: the regular
files of the directory listing whose names are not excluded. -/
def movedNames (l : List Entry) : List String :=
  (l.filter fun e => e.isFile && !excludedName e.name).map Entry.name

/-! ### JSON values and the display layer -/

/-- Parsed JSON values, as returned by `json.load`. -/
inductive JValue where
  | str : String → JValue
  | num : Int → JValue
  | bool : Bool → JValue
  | null : JValue
  | arr : List JValue → JValue
  | obj : List (String × JValue) → JValue

/-- Python truthiness of a parsed JSON value (`if data:`, `if cards:`). -/
def pyTruthy : JValue → Bool
  | .str s => !s.isEmpty
  | .num n => n != 0
  | .bool b => b
  | .null => false
  | .arr xs => !xs.isEmpty
  | .obj kvs => !kvs.isEmpty

/-- Python `len` on a parsed JSON value: defined for strings, lists and
dicts, raises (`none`) otherwise. -/
def pyLen : JValue → Option Nat
  | .str s => some s.length
  | .arr xs => some xs.length
  | .obj kvs => some kvs.length
  | _ => none

/-- Python iteration over a parsed JSON value (`for f in files`): elements of
a list, one-character strings of a string, keys of a dict; raises (`none`)
otherwise. -/
def pyElems : JValue → Option (List JValue)
  | .arr xs => some xs
  | .str s => some (s.data.map fun c => .str (String.mk [c]))
  | .obj kvs => some (kvs.map fun kv => .str kv.1)
  | _ => none

/-- Lookup of a key in a parsed JSON object (`data.get(k)` without
default). -/
def jGet (kvs : List (String × JValue)) (k : String) : Option JValue :=
  kvs.lookup k

/-- Python `data.get(k, d)`: the value bound to `k`, or the default `d` when
the key is absent. -/
def fieldOr (kvs : List (String × JValue)) (k : String) (d : JValue) : JValue :=
  (jGet kvs k).getD d

/-- The name shown in the files tree for one element of `files`:
`f.get('name', 'unknown')`; raises (`none`) when the element is not a
dict. -/
def fileName : JValue → Option JValue
  | .obj kvs => some ((kvs.lookup "name").getD (.str "unknown"))
  | _ => none

/-- The final line printed by `display_results`: the downloaded-to
confirmation, the download tip, or nothing. -/
inductive DownloadNote where
  | downloadedTo (dir : List String)
  | tip
  | silent
deriving DecidableEq, Repr

/-- Everything `display_results` renders: the title panel content, the
optional cards row, the three counts of the summary table, the optional
files tree (the names shown), and the final download note. -/
structure Summary where
  titleShown : JValue
  cardsRow : Option Nat
  filesRow : Nat
  imagesRow : Nat
  linksRow : Nat
  fileTree : Option (List JValue)
  note : DownloadNote

/-- Embedding of `display_results(data, output_dir, downloaded)`.  Returns
`none` when the Python function would raise: the data is not a dict, a
truthy `cards` value has no `len`, a sequence field has no `len`, `files`
is truthy but not iterable, or an element of `files` is not a dict. -/
def display_results (data : JValue) (outputDir : List String)
    (downloaded : Bool) : Option Summary :=
  match data with
  | .obj kvs =>
    let title := fieldOr kvs "title" (.str "Unknown Page")
    let cards := fieldOr kvs "cards" (.arr [])
    let files := fieldOr kvs "files" (.arr [])
    let images := fieldOr kvs "images" (.arr [])
    let links := fieldOr kvs "links" (.arr [])
    (if pyTruthy cards then (pyLen cards).map some else some none).bind
      fun cardsRow =>
    (pyLen files).bind fun filesRow =>
    (pyLen images).bind fun imagesRow =>
    (pyLen links).bind fun linksRow =>
    (if pyTruthy files then
        (pyElems files).bind fun items => (items.mapM fileName).map some
      else some none).bind fun tree =>
    some { titleShown := title, cardsRow := cardsRow, filesRow := filesRow,
           imagesRow := imagesRow, linksRow := linksRow, fileTree := tree,
           note := if downloaded && pyTruthy files then .downloadedTo outputDir
                   else if pyTruthy files then .tip else .silent }
  | _ => none

/-! ### Subprocess calls and the dependency installer -/

/-- Rendering of a path as the string Python would pass on a command line. -/
def pathStr (p : List String) : String := String.intercalate "/" p

/-- One `subprocess.run` invocation: argument vector, working directory,
timeout in seconds (when given), and explicit environment (when given;
`none` means the child inherits the parent environment). -/
structure CallSpec where
  args : List String
  cwd : List String
  timeoutSeconds : Option Nat
  env : Option (List (String × String))
deriving DecidableEq, Repr

/-- Outcome of the `npm install` subprocess in the surrounding world: it ran
to completion with an exit code and captured output, or `subprocess.run`
raised (for instance `FileNotFoundError` when npm is not on the path). -/
inductive InstallOutcome where
  | completed (rc : Int) (out err : String)
  | raised (msg : String)
deriving DecidableEq, Repr

/-- Trace of one call of `install_npm_dependencies`: the subprocess call it
makes, the console messages it prints, and its boolean return value. -/
structure InstallTrace where
  call : CallSpec
  messages : List String
  ok : Bool
deriving DecidableEq, Repr

/-- Embedding of `install_npm_dependencies()`: prints the installing banner,
runs `npm install` with the scraper directory as working directory and
captured output, returns `returncode == 0`; any raised exception is caught,
reported with the exception text, and turned into `False`.  The captured
stdout and stderr of a completed process are ignored. -/
def install_npm_dependencies (scraperDir : List String)
    (outcome : InstallOutcome) : InstallTrace :=
  let call : CallSpec :=
    { args := ["npm", "install"], cwd := scraperDir,
      timeoutSeconds := none, env := none }
  match outcome with
  | .completed rc _ _ =>
    { call := call,
      messages := ["Installing Puppeteer dependencies..."],
      ok := rc == 0 }
  | .raised msg =>
    { call := call,
      messages := ["Installing Puppeteer dependencies...",
                   "Failed to install dependencies: " ++ msg],
      ok := false }

/-- This predicate holds exactly when the modelled `npm install` fails: the
executable could not be run, or the process exited non-zero. -/
def installFails : InstallOutcome → Prop
  | .completed rc _ _ => rc ≠ 0
  | .raised _ => True

/-- Whether the first character list is an initial segment of the second. -/
def leadsWith : List Char → List Char → Bool
  | [], _ => true
  | _ :: _, [] => false
  | c :: cs, d :: ds => c == d && leadsWith cs ds

/-- Whether a character list occurs contiguously inside another. -/
def charsContain : List Char → List Char → Bool
  | [], pat => pat.isEmpty
  | s@(_ :: rest), pat => leadsWith pat s || charsContain rest pat

/-- Whether a string occurs as a substring of another. -/
def strContains (s pat : String) : Bool := charsContain s.data pat.data

/-! ### The scraper invocation -/

/-- Outcome of the `node scraper.js` subprocess in the surrounding world. -/
inductive SubprocOutcome where
  | completed (rc : Int) (out err : String)
  | timedOut
  | raised (msg : String)
deriving DecidableEq, Repr

/-- State of the results file `downloads/scrape-results.json` after the
subprocess ran: absent, present with content that is not valid JSON, or
present and parsed to a value. -/
inductive ParseOutcome where
  | malformed (msg : String)
  | parsed (v : JValue)

/-- All the external facts one CLI invocation runs against: the parent
environment, where the scraper lives, what the dependency probes see, how
each subprocess would behave, what the results file holds, the filesystem
state, and whether the move operation would raise an OS-level error (and the
partial downloads state it would leave behind). -/
structure World where
  env : List (String × String)
  scraperDir : List String
  nodeInstalled : Bool
  npmDepsInstalled : Bool
  installOutcome : InstallOutcome
  scraperOutcome : SubprocOutcome
  resultsFile : Option ParseOutcome
  fs : FS
  moveRaises : Option String
  downloadsOnFailedMove : List Entry

/-- Which branch of `run_scraper` produced the return value: normal return
of parsed data, the non-zero-exit branch, the missing-results-file `return
None`, the `TimeoutExpired` handler, or the generic `except Exception`
handler. -/
inductive RunPath where
  | success
  | subprocessFailed
  | missingResults
  | timedOut
  | exceptionCaught
deriving DecidableEq, Repr

/-- Trace of one call of `run_scraper`: the subprocess call it issues, the
returned value (`None` on every failure), the branch taken, whether the
relocation helper was invoked, the downloads directory afterwards, and the
console messages printed. -/
structure RunTrace where
  call : CallSpec
  result : Option JValue
  path : RunPath
  relocationAttempted : Bool
  downloadsAfter : List Entry
  messages : List String

/-- Embedding of `run_scraper(url, download, debug, output_dir)`.  Builds
the child environment, invokes `node <scraperDir>/scraper.js <url>` with the
scraper directory as working directory and a 300-second timeout, then: on a
timeout or any raised exception returns `None` with a message; on a non-zero
exit prints the captured stderr and returns `None`; on exit 0 reads the
results file, returning `None` when it is absent, catching a JSON parse
error, moving the downloads when the download flag is set (a raised move
error is caught), and finally returning the parsed data. -/
def run_scraper (url : String) (download debug : Bool)
    (output_dir : List String) (w : World) : RunTrace :=
  let env := build_env w.env download debug
  let call : CallSpec :=
    { args := ["node", pathStr (w.scraperDir ++ ["scraper.js"]), url],
      cwd := w.scraperDir, timeoutSeconds := some 300, env := some env }
  match w.scraperOutcome with
  | .timedOut =>
    { call := call, result := none, path := .timedOut,
      relocationAttempted := false, downloadsAfter := w.fs.downloads,
      messages := ["Scraper timed out after 5 minutes"] }
  | .raised msg =>
    { call := call, result := none, path := .exceptionCaught,
      relocationAttempted := false, downloadsAfter := w.fs.downloads,
      messages := ["Error running scraper: " ++ msg] }
  | .completed rc _ err =>
    if rc ≠ 0 then
      { call := call, result := none, path := .subprocessFailed,
        relocationAttempted := false, downloadsAfter := w.fs.downloads,
        messages := ["Scraper error:\n" ++ err] }
    else
      match w.resultsFile with
      | none =>
        { call := call, result := none, path := .missingResults,
          relocationAttempted := false, downloadsAfter := w.fs.downloads,
          messages := [] }
      | some (.malformed msg) =>
        { call := call, result := none, path := .exceptionCaught,
          relocationAttempted := false, downloadsAfter := w.fs.downloads,
          messages := ["Error running scraper: " ++ msg] }
      | some (.parsed v) =>
        if download then
          match w.moveRaises with
          | some msg =>
            { call := call, result := none, path := .exceptionCaught,
              relocationAttempted := true,
              downloadsAfter := w.downloadsOnFailedMove,
              messages := ["Error running scraper: " ++ msg] }
          | none =>
            match move_downloads_to_output output_dir w.fs with
            | some (fs', _) =>
              { call := call, result := some v, path := .success,
                relocationAttempted := true, downloadsAfter := fs'.downloads,
                messages := [] }
            | none =>
              { call := call, result := none, path := .exceptionCaught,
                relocationAttempted := true,
                downloadsAfter := w.downloadsOnFailedMove,
                messages := ["Error running scraper: move failed"] }
        else
          { call := call, result := some v, path := .success,
            relocationAttempted := false, downloadsAfter := w.fs.downloads,
            messages := [] }

/-! ### The scrape command -/

/-- Pipeline stage at which the command failed. -/
inductive Stage where
  | validating
  | checkingNode
  | ensuringDeps
  | invoking
  | presenting
deriving DecidableEq, Repr

/-- Trace of one run of the `scrape` command: every subprocess call spawned,
how many times the scraper was invoked, the data handed to
`display_results` (if it was called), the summary it rendered (if it
completed), whether the process exited non-zero, the stage of the failure,
and the relocation effects. -/
structure ScrapeTrace where
  subprocessCalls : List CallSpec
  scraperInvocations : Nat
  displayed : Option JValue
  summaryShown : Option Summary
  exitNonZero : Bool
  failedStage : Option Stage
  relocationAttempted : Bool
  downloadsAfter : List Entry

/-- URL validation at the top of `scrape`:
`url.startswith(("http://", "https://"))`. -/
def validURL (url : String) : Bool :=
  leadsWith "http://".data url.data || leadsWith "https://".data url.data

/-- Tail of the `scrape` command after dependencies are ensured: runs the
scraper once; when it returned data and the data is truthy, displays it
(a raise inside `display_results` escapes and kills the process with a
non-zero exit after a partial render); otherwise prints the failure line
and exits 1. -/
def scrape_after_deps (url : String) (download : Bool)
    (output : List String) (debug : Bool) (w : World)
    (installCalls : List CallSpec) : ScrapeTrace :=
  let r := run_scraper url download debug output w
  match r.result with
  | some v =>
    if pyTruthy v then
      match display_results v output download with
      | some s =>
        { subprocessCalls := installCalls ++ [r.call],
          scraperInvocations := 1, displayed := some v,
          summaryShown := some s, exitNonZero := false, failedStage := none,
          relocationAttempted := r.relocationAttempted,
          downloadsAfter := r.downloadsAfter }
      | none =>
        { subprocessCalls := installCalls ++ [r.call],
          scraperInvocations := 1, displayed := some v,
          summaryShown := none, exitNonZero := true,
          failedStage := some .presenting,
          relocationAttempted := r.relocationAttempted,
          downloadsAfter := r.downloadsAfter }
    else
      { subprocessCalls := installCalls ++ [r.call],
        scraperInvocations := 1, displayed := none, summaryShown := none,
        exitNonZero := true, failedStage := some .invoking,
        relocationAttempted := r.relocationAttempted,
        downloadsAfter := r.downloadsAfter }
  | none =>
    { subprocessCalls := installCalls ++ [r.call],
      scraperInvocations := 1, displayed := none, summaryShown := none,
      exitNonZero := true, failedStage := some .invoking,
      relocationAttempted := r.relocationAttempted,
      downloadsAfter := r.downloadsAfter }

/-- Embedding of the `scrape` command: validates the URL, checks that
Node.js is installed, ensures npm dependencies (installing them when the
probe fails), then hands over to the invocation tail.  Every failure before
the invocation exits 1 without spawning the scraper. -/
def scrape (url : String) (download : Bool) (output : List String)
    (debug : Bool) (w : World) : ScrapeTrace :=
  if validURL url = false then
    { subprocessCalls := [], scraperInvocations := 0, displayed := none,
      summaryShown := none, exitNonZero := true,
      failedStage := some .validating, relocationAttempted := false,
      downloadsAfter := w.fs.downloads }
  else if w.nodeInstalled = false then
    { subprocessCalls := [], scraperInvocations := 0, displayed := none,
      summaryShown := none, exitNonZero := true,
      failedStage := some .checkingNode, relocationAttempted := false,
      downloadsAfter := w.fs.downloads }
  else if w.npmDepsInstalled then
    scrape_after_deps url download output debug w []
  else
    let it := install_npm_dependencies w.scraperDir w.installOutcome
    if it.ok then
      scrape_after_deps url download output debug w [it.call]
    else
      { subprocessCalls := [it.call], scraperInvocations := 0,
        displayed := none, summaryShown := none, exitNonZero := true,
        failedStage := some .ensuringDeps, relocationAttempted := false,
        downloadsAfter := w.fs.downloads }

/-- The failure categories of the error-handling design: bad URL, runtime
missing, dependency install failure, timeout, non-zero subprocess exit,
missing results file, malformed results, relocation error on a download
run. -/
def enumeratedFailure (url : String) (download : Bool) (w : World) : Prop :=
  validURL url = false
  ∨ w.nodeInstalled = false
  ∨ (w.npmDepsInstalled = false ∧ installFails w.installOutcome)
  ∨ w.scraperOutcome = .timedOut
  ∨ (∃ rc out err, w.scraperOutcome = .completed rc out err ∧ rc ≠ 0)
  ∨ w.resultsFile = none
  ∨ (∃ msg, w.resultsFile = some (.malformed msg))
  ∨ (download = true ∧ w.moveRaises ≠ none)

/-! ### Sample inputs used by the witnesses -/

/-- A small downloads directory: one artifact, the two control files, and a
subdirectory. -/
def sampleFS : FS :=
  { dirs := [["app", "scraper", "downloads"]],
    downloads := [⟨"a.pdf", true⟩, ⟨"scrape-results.json", true⟩,
                  ⟨"page-screenshot.png", true⟩, ⟨"sub", false⟩] }

/-- A world in which every step of the pipeline succeeds. -/
def sampleWorld : World :=
  { env := [("PATH", "/bin")], scraperDir := ["app", "scraper"],
    nodeInstalled := true, npmDepsInstalled := true,
    installOutcome := .completed 0 "" "",
    scraperOutcome := .completed 0 "" "",
    resultsFile := some (.parsed (.obj [("title", .str "T")])),
    fs := sampleFS, moveRaises := none, downloadsOnFailedMove := [] }

/-! ### Helper lemmas -/

theorem lookup_setVar_self (env : List (String × String)) (k v : String) :
    (setVar env k v).lookup k = some v := by
  induction env with
  | nil => simp [setVar, List.lookup]
  | cons p rest ih =>
    obtain ⟨k', v'⟩ := p
    by_cases h : k' = k
    · subst h
      simp [setVar, List.lookup]
    · have hkk : (k == k') = false :=
        beq_eq_false_iff_ne.mpr fun hh => h hh.symm
      simp [setVar, h, List.lookup, hkk, ih]

theorem lookup_setVar_ne (env : List (String × String)) (k v k' : String)
    (h : k' ≠ k) : (setVar env k v).lookup k' = env.lookup k' := by
  have hkk : (k' == k) = false := beq_eq_false_iff_ne.mpr h
  induction env with
  | nil => simp [setVar, List.lookup, hkk]
  | cons p rest ih =>
    obtain ⟨a, b⟩ := p
    by_cases ha : a = k
    · subst ha
      simp [setVar, List.lookup, hkk]
    · cases hx : (k' == a)
      · simp [setVar, ha, List.lookup, hx, ih]
      · simp [setVar, ha, List.lookup, hx]

theorem self_mem_ancestorDirs (p : List String) : p ∈ ancestorDirs p := by
  induction p with
  | nil => simp [ancestorDirs]
  | cons x xs ih =>
    simp only [ancestorDirs, List.mem_cons, List.mem_map]
    exact Or.inr ⟨xs, ih, rfl⟩

theorem moveLoop_eq (dirs : List (List String)) (outputDir : List String)
    (l : List Entry) (h : outputDir ∈ dirs) :
    moveLoop dirs outputDir l =
      some (l.filter fun e => !(e.isFile && !excludedName e.name),
            (l.filter fun e => e.isFile && !excludedName e.name).map
              fun e => outputDir ++ [e.name]) := by
  induction l with
  | nil => simp [moveLoop]
  | cons e rest ih =>
    by_cases hex : excludedName e.name
    · simp [moveLoop, hex, ih]
    · cases hf : e.isFile
      · simp [moveLoop, hex, hf, ih]
      · simp [moveLoop, hex, hf, h, ih]

theorem move_downloads_to_output_eq (outputDir : List String) (fs : FS) :
    move_downloads_to_output outputDir fs =
      some ({ dirs := ancestorDirs outputDir ++ fs.dirs,
              downloads := fs.downloads.filter
                fun e => !(e.isFile && !excludedName e.name) },
            (fs.downloads.filter fun e => e.isFile && !excludedName e.name).map
              fun e => outputDir ++ [e.name]) := by
  have h : outputDir ∈ ancestorDirs outputDir ++ fs.dirs :=
    List.mem_append_left _ (self_mem_ancestorDirs outputDir)
  simp [move_downloads_to_output, moveLoop_eq _ _ _ h]

theorem run_scraper_call (url : String) (download debug : Bool)
    (output : List String) (w : World) :
    (run_scraper url download debug output w).call =
      { args := ["node", pathStr (w.scraperDir ++ ["scraper.js"]), url],
        cwd := w.scraperDir, timeoutSeconds := some 300,
        env := some (build_env w.env download debug) } := by
  unfold run_scraper
  rcases w.scraperOutcome with ⟨rc, out, err⟩ | _ | msg
  · by_cases hrc : rc = 0
    · subst hrc
      rcases w.resultsFile with _ | mv
      · simp
      · rcases mv with m | v
        · simp
        · cases download
          · simp
          · rcases w.moveRaises with _ | m
            · simp [move_downloads_to_output_eq]
            · simp
    · simp [hrc]
  · simp
  · simp

theorem run_scraper_result_some_iff (url : String) (download debug : Bool)
    (output : List String) (w : World) (v : JValue) :
    (run_scraper url download debug output w).result = some v ↔
      ((∃ out err, w.scraperOutcome = .completed 0 out err)
        ∧ w.resultsFile = some (.parsed v)
        ∧ (download = true → w.moveRaises = none)) := by
  unfold run_scraper
  rcases w.scraperOutcome with ⟨rc, out, err⟩ | _ | msg
  · by_cases hrc : rc = 0
    · subst hrc
      rcases w.resultsFile with _ | mv
      · simp
      · rcases mv with m | v'
        · simp
        · cases download
          · simp
          · rcases w.moveRaises with _ | m
            · simp [move_downloads_to_output_eq]
            · simp
    · simp [hrc]
  · simp
  · simp

theorem install_ok_iff (scraperDir : List String) (outcome : InstallOutcome) :
    (install_npm_dependencies scraperDir outcome).ok = true ↔
      ¬ installFails outcome := by
  rcases outcome with ⟨rc, o, e⟩ | m <;>
    simp [install_npm_dependencies, installFails]

theorem run_result_none_of_failure (url : String) (download debug : Bool)
    (output : List String) (w : World)
    (h : w.scraperOutcome = .timedOut
      ∨ (∃ rc o e, w.scraperOutcome = .completed rc o e ∧ rc ≠ 0)
      ∨ w.resultsFile = none
      ∨ (∃ m, w.resultsFile = some (.malformed m))
      ∨ (download = true ∧ w.moveRaises ≠ none)) :
    (run_scraper url download debug output w).result = none := by
  rcases hr : (run_scraper url download debug output w).result with _ | v
  · rfl
  · exfalso
    obtain ⟨⟨o, e, hso⟩, hrf, hmv⟩ :=
      (run_scraper_result_some_iff url download debug output w v).mp hr
    rcases h with h | h | h | h | h
    · rw [hso] at h
      cases h
    · obtain ⟨rc, o', e', hso2, hrc⟩ := h
      rw [hso] at hso2
      injection hso2 with h1 h2 h3
      exact hrc h1.symm
    · rw [hrf] at h
      cases h
    · obtain ⟨m, hm⟩ := h
      rw [hrf] at hm
      injection hm with hm'
      cases hm'
    · exact h.2 (hmv h.1)

theorem scrape_result_none (url : String) (download debug : Bool)
    (output : List String) (w : World)
    (hres : (run_scraper url download debug output w).result = none) :
    (scrape url download output debug w).displayed = none
    ∧ (scrape url download output debug w).summaryShown = none
    ∧ (scrape url download output debug w).exitNonZero = true := by
  by_cases hu : validURL url = false
  · simp [scrape, hu]
  · by_cases hn : w.nodeInstalled = false
    · simp [scrape, hu, hn]
    · by_cases hd : w.npmDepsInstalled = true
      · simp [scrape, hu, hn, hd, scrape_after_deps, hres]
      · by_cases hio :
          (install_npm_dependencies w.scraperDir w.installOutcome).ok = true
        · simp [scrape, hu, hn, hd, hio, scrape_after_deps, hres]
        · simp [scrape, hu, hn, hd, hio]

theorem scrape_after_deps_invocations (url : String) (download debug : Bool)
    (output : List String) (w : World) (installCalls : List CallSpec) :
    (scrape_after_deps url download output debug w
        installCalls).scraperInvocations = 1 := by
  rcases hr : (run_scraper url download debug output w).result with _ | v
  · simp [scrape_after_deps, hr]
  · cases hpt : pyTruthy v
    · simp [scrape_after_deps, hr, hpt]
    · rcases hd : display_results v output download with _ | s <;>
        simp [scrape_after_deps, hr, hpt, hd]

theorem scrape_invocations_le_one (url : String) (download debug : Bool)
    (output : List String) (w : World) :
    (scrape url download output debug w).scraperInvocations ≤ 1 := by
  by_cases hu : validURL url = false
  · simp [scrape, hu]
  · by_cases hn : w.nodeInstalled = false
    · simp [scrape, hu, hn]
    · by_cases hd : w.npmDepsInstalled = true
      · simp [scrape, hu, hn, hd, scrape_after_deps_invocations]
      · by_cases hio :
          (install_npm_dependencies w.scraperDir w.installOutcome).ok = true
        · simp [scrape, hu, hn, hd, hio, scrape_after_deps_invocations]
        · simp [scrape, hu, hn, hd, hio]

theorem run_scraper_relocation_iff (url : String) (download debug : Bool)
    (output : List String) (w : World) :
    (run_scraper url download debug output w).relocationAttempted = true ↔
      (download = true ∧ (∃ o e, w.scraperOutcome = .completed 0 o e)
        ∧ (∃ v, w.resultsFile = some (.parsed v))) := by
  unfold run_scraper
  rcases w.scraperOutcome with ⟨rc, o, e⟩ | _ | m
  · by_cases hrc : rc = 0
    · subst hrc
      rcases w.resultsFile with _ | mv
      · simp
      · rcases mv with m | v
        · simp
        · cases download
          · simp
          · rcases w.moveRaises with _ | m
            · simp [move_downloads_to_output_eq]
            · simp
    · simp [hrc]
  · simp
  · simp

theorem run_scraper_untouched (url : String) (download debug : Bool)
    (output : List String) (w : World)
    (h : (run_scraper url download debug output w).relocationAttempted
          = false) :
    (run_scraper url download debug output w).downloadsAfter
      = w.fs.downloads := by
  revert h
  unfold run_scraper
  rcases w.scraperOutcome with ⟨rc, o, e⟩ | _ | m
  · by_cases hrc : rc = 0
    · subst hrc
      rcases w.resultsFile with _ | mv
      · simp
      · rcases mv with m | v
        · simp
        · cases download
          · simp
          · rcases w.moveRaises with _ | m
            · simp [move_downloads_to_output_eq]
            · simp
    · simp [hrc]
  · simp
  · simp

/-! ### Claim theorems -/

/-- C1: for every state of the downloads directory, relocation moves exactly
the entries that are regular files and whose names are not in the exclusion
set, leaves the excluded files in place, the set of relocated names equals
the regular files minus the exclusion set regardless of enumeration order,
and the returned sequence holds the final destination paths. -/
theorem relocation_moves_exactly_nonexcluded_files (outputDir : List String)
    (fs : FS) :
    (move_downloads_to_output outputDir fs =
      some ({ dirs := ancestorDirs outputDir ++ fs.dirs,
              downloads := fs.downloads.filter
                fun e => !(e.isFile && !excludedName e.name) },
            (fs.downloads.filter fun e => e.isFile && !excludedName e.name).map
              fun e => outputDir ++ [e.name]))
    ∧ (∀ e ∈ fs.downloads, excludedName e.name = true →
        e ∈ fs.downloads.filter fun e => !(e.isFile && !excludedName e.name))
    ∧ (∀ n : String, n ∈ movedNames fs.downloads ↔
        ((⟨n, true⟩ : Entry) ∈ fs.downloads ∧ excludedName n = false))
    ∧ (∀ l' : List Entry, fs.downloads.Perm l' →
        (movedNames l').Perm (movedNames fs.downloads))
    ∧ ((fs.downloads.filter fun e => e.isFile && !excludedName e.name).map
          fun e => outputDir ++ [e.name])
        = (movedNames fs.downloads).map fun n => outputDir ++ [n] := by
  refine ⟨move_downloads_to_output_eq outputDir fs, ?_, ?_, ?_, ?_⟩
  · intro e he hex
    exact List.mem_filter.mpr ⟨he, by simp [hex]⟩
  · intro n
    unfold movedNames
    simp only [List.mem_map, List.mem_filter]
    constructor
    · rintro ⟨e, ⟨he, hp⟩, rfl⟩
      rcases e with ⟨en, ef⟩
      simp only [Bool.and_eq_true, Bool.not_eq_true'] at hp
      obtain ⟨h1, h2⟩ := hp
      subst h1
      exact ⟨he, h2⟩
    · rintro ⟨he, hex⟩
      exact ⟨⟨n, true⟩, ⟨he, by simp [hex]⟩, rfl⟩
  · intro l' hperm
    exact (hperm.symm.filter _).map Entry.name
  · simp [movedNames, List.map_map]

/-- C1 witness: on the sample downloads directory the artifact name is among
the moved names, and a reordering of the directory listing yields a
permutation of the same moved names. -/
theorem relocation_moves_exactly_nonexcluded_files_witness :
    ("a.pdf" ∈ movedNames sampleFS.downloads)
    ∧ (movedNames [⟨"scrape-results.json", true⟩, ⟨"a.pdf", true⟩,
        ⟨"page-screenshot.png", true⟩, ⟨"sub", false⟩]).Perm
        (movedNames sampleFS.downloads) := by
  have h := relocation_moves_exactly_nonexcluded_files ["out"] sampleFS
  constructor
  · exact (h.2.2.1 "a.pdf").mpr ⟨by simp [sampleFS], by decide⟩
  · exact h.2.2.2.1 _ (by decide)

/-- C8: relocation into a non-existent output directory first creates that
directory including all missing parents, and never errors merely because
the output directory was absent. -/
theorem relocation_creates_output_dir (outputDir : List String) (fs : FS) :
    (move_downloads_to_output outputDir fs).isSome = true
    ∧ (∀ fsd, move_downloads_to_output outputDir fs = some fsd →
        ∀ p ∈ ancestorDirs outputDir, p ∈ fsd.1.dirs) := by
  constructor
  · rw [move_downloads_to_output_eq]
    rfl
  · intro fsd h p hp
    rw [move_downloads_to_output_eq] at h
    obtain rfl := Option.some.inj h
    exact List.mem_append_left _ hp

/-- C8 witness: relocating into an absent two-level output directory
succeeds and the result records the full output path as an existing
directory. -/
theorem relocation_creates_output_dir_witness :
    (move_downloads_to_output ["home", "out"]
        ⟨[], [⟨"a.pdf", true⟩]⟩).isSome = true
    ∧ ["home", "out"] ∈
        (({ dirs := [[], ["home"], ["home", "out"]], downloads := [] } : FS),
          ([["home", "out", "a.pdf"]] : List (List String))).1.dirs := by
  have h := relocation_creates_output_dir ["home", "out"] ⟨[], [⟨"a.pdf", true⟩]⟩
  exact ⟨h.1, h.2 _ (by decide) _ (by decide)⟩

/-- C2: the child-process environment passed to the scraper equals the
current process environment with DOWNLOAD set to true exactly when the
download flag is requested and DEBUG set to true exactly when the debug flag
is requested; every other variable is looked up unchanged. -/
theorem child_env_spec (env : List (String × String)) (download debug : Bool) :
    ((build_env env download debug).lookup "DOWNLOAD" =
        if download then some "true" else env.lookup "DOWNLOAD")
    ∧ ((build_env env download debug).lookup "DEBUG" =
        if debug then some "true" else env.lookup "DEBUG")
    ∧ (∀ k : String, k ≠ "DOWNLOAD" → k ≠ "DEBUG" →
        (build_env env download debug).lookup k = env.lookup k)
    ∧ (∀ (url : String) (output : List String) (w : World),
        (run_scraper url download debug output w).call.env =
          some (build_env w.env download debug)) := by
  have h1 : ∀ e : List (String × String),
      (setVar e "DEBUG" "true").lookup "DOWNLOAD" = e.lookup "DOWNLOAD" :=
    fun e => lookup_setVar_ne e "DEBUG" "true" "DOWNLOAD" (by decide)
  have h2 : ∀ e : List (String × String),
      (setVar e "DOWNLOAD" "true").lookup "DEBUG" = e.lookup "DEBUG" :=
    fun e => lookup_setVar_ne e "DOWNLOAD" "true" "DEBUG" (by decide)
  refine ⟨?_, ?_, ?_, ?_⟩
  · cases download <;> cases debug <;>
      simp [build_env, lookup_setVar_self, h1]
  · cases download <;> cases debug <;>
      simp [build_env, lookup_setVar_self, h2]
  · intro k hk1 hk2
    have h3 : ∀ e : List (String × String),
        (setVar e "DOWNLOAD" "true").lookup k = e.lookup k :=
      fun e => lookup_setVar_ne e "DOWNLOAD" "true" k hk1
    have h4 : ∀ e : List (String × String),
        (setVar e "DEBUG" "true").lookup k = e.lookup k :=
      fun e => lookup_setVar_ne e "DEBUG" "true" k hk2
    cases download <;> cases debug <;> simp [build_env, h3, h4]
  · intro url output w
    simp [run_scraper_call]

/-- C2 witness: with a one-variable parent environment and only the download
flag set, DOWNLOAD is true in the child environment and PATH is passed
through unchanged. -/
theorem child_env_spec_witness :
    ((build_env [("PATH", "/bin")] true false).lookup "DOWNLOAD"
        = some "true")
    ∧ ((build_env [("PATH", "/bin")] true false).lookup "PATH"
        = some "/bin") := by
  have h := child_env_spec [("PATH", "/bin")] true false
  exact ⟨by simpa using h.1, by simpa using h.2.2.1 "PATH" (by decide) (by decide)⟩

/-- C9 counterexample: when npm exits 1 with captured stderr "npm ERR!
boom", the install fails but the captured stderr occurs in none of the
printed messages, refuting the claim that the error message includes the
captured stderr in the non-zero-exit case. -/
theorem install_stderr_never_reported :
    (install_npm_dependencies ["app", "scraper"]
        (.completed 1 "" "npm ERR! boom")).ok = false
    ∧ (install_npm_dependencies ["app", "scraper"]
        (.completed 1 "" "npm ERR! boom")).messages
        = ["Installing Puppeteer dependencies..."]
    ∧ strContains "Installing Puppeteer dependencies..." "npm ERR! boom"
        = false := by
  refine ⟨rfl, rfl, ?_⟩
  decide

/-- C9 (amended): install_npm_dependencies runs the npm install command with
the scraper directory as working directory and fails exactly when the npm
executable cannot be run or the process exits non-zero; the stderr captured
from a completed process is discarded, so no printed message depends on
it. -/
theorem install_npm_dependencies_spec (scraperDir : List String)
    (outcome : InstallOutcome) :
    (install_npm_dependencies scraperDir outcome).call =
      { args := ["npm", "install"], cwd := scraperDir,
        timeoutSeconds := none, env := none }
    ∧ ((install_npm_dependencies scraperDir outcome).ok = false ↔
        installFails outcome)
    ∧ (∀ rc out err, outcome = .completed rc out err →
        (install_npm_dependencies scraperDir outcome).messages =
          ["Installing Puppeteer dependencies..."]) := by
  rcases outcome with ⟨rc, o, e⟩ | m
  · refine ⟨rfl, ?_, fun _ _ _ _ => rfl⟩
    simp [install_npm_dependencies, installFails]
  · refine ⟨rfl, ?_, ?_⟩
    · simp [install_npm_dependencies, installFails]
    · intro rc o e h
      cases h

/-- C9 witness: with npm exiting 2, the call runs npm install in the scraper
directory and the install fails. -/
theorem install_npm_dependencies_spec_witness :
    (install_npm_dependencies ["app", "scraper"]
        (.completed 2 "" "err")).call.cwd = ["app", "scraper"]
    ∧ (install_npm_dependencies ["app", "scraper"]
        (.completed 2 "" "err")).ok = false := by
  have h := install_npm_dependencies_spec ["app", "scraper"]
    (.completed 2 "" "err")
  exact ⟨by rw [h.1], h.2.1.mpr (by simp [installFails])⟩

/-- C6: for any URL string not starting with the http or https scheme, the
pipeline fails at the validating stage with a non-zero exit before any
subprocess is spawned. -/
theorem invalid_url_fails_before_subprocess (url : String) (download : Bool)
    (output : List String) (debug : Bool) (w : World)
    (h : validURL url = false) :
    scrape url download output debug w =
      { subprocessCalls := [], scraperInvocations := 0, displayed := none,
        summaryShown := none, exitNonZero := true,
        failedStage := some .validating, relocationAttempted := false,
        downloadsAfter := w.fs.downloads } := by
  simp [scrape, h]

/-- C6 witness: a URL with the ftp scheme fails validation and the run
spawns nothing and exits non-zero. -/
theorem invalid_url_fails_before_subprocess_witness :
    scrape "ftp://example.com" false [] false sampleWorld =
      { subprocessCalls := [], scraperInvocations := 0, displayed := none,
        summaryShown := none, exitNonZero := true,
        failedStage := some .validating, relocationAttempted := false,
        downloadsAfter := sampleWorld.fs.downloads } :=
  invalid_url_fails_before_subprocess "ftp://example.com" false [] false
    sampleWorld (by decide)

/-- C5: the scraper subprocess is invoked with the target URL as the sole
positional argument after the script path, working directory fixed to the
scraper directory, and a hard timeout of 300 seconds; when it times out the
invocation fails on the timeout branch and produces no result. -/
theorem scraper_invocation_contract (url : String) (download debug : Bool)
    (output : List String) (w : World) :
    ((run_scraper url download debug output w).call.args =
        ["node", pathStr (w.scraperDir ++ ["scraper.js"]), url]
      ∧ (run_scraper url download debug output w).call.cwd = w.scraperDir
      ∧ (run_scraper url download debug output w).call.timeoutSeconds
          = some 300)
    ∧ (w.scraperOutcome = .timedOut →
        (run_scraper url download debug output w).result = none
        ∧ (run_scraper url download debug output w).path = .timedOut) := by
  constructor
  · simp [run_scraper_call]
  · intro h
    constructor <;> simp [run_scraper, h]

/-- C5 witness: on a timed-out world the call carries the 300-second timeout
and the invocation returns no result. -/
theorem scraper_invocation_contract_witness :
    ((run_scraper "https://example.com" true false ["out"]
        { sampleWorld with scraperOutcome := .timedOut }).call.timeoutSeconds
      = some 300)
    ∧ (run_scraper "https://example.com" true false ["out"]
        { sampleWorld with scraperOutcome := .timedOut }).result = none := by
  have h := scraper_invocation_contract "https://example.com" true false
    ["out"] { sampleWorld with scraperOutcome := .timedOut }
  exact ⟨h.1.2.2, (h.2 rfl).1⟩

/-- C4: if the subprocess exits 0 but the results file is absent, loading
fails on the dedicated missing-results branch — not on the exception
handler — and the pipeline aborts with a non-zero exit presenting
nothing. -/
theorem missing_results_file_spec (url : String) (download debug : Bool)
    (output : List String) (w : World)
    (hrc : ∃ out err, w.scraperOutcome = .completed 0 out err)
    (hfile : w.resultsFile = none) :
    (run_scraper url download debug output w).result = none
    ∧ (run_scraper url download debug output w).path = .missingResults
    ∧ (run_scraper url download debug output w).path ≠ .exceptionCaught
    ∧ (scrape url download output debug w).displayed = none
    ∧ (scrape url download output debug w).summaryShown = none
    ∧ (scrape url download output debug w).exitNonZero = true := by
  obtain ⟨o, e, hso⟩ := hrc
  have h1 : (run_scraper url download debug output w).result = none := by
    simp [run_scraper, hso, hfile]
  have h2 : (run_scraper url download debug output w).path
      = .missingResults := by
    simp [run_scraper, hso, hfile]
  have h3 := scrape_result_none url download debug output w h1
  exact ⟨h1, h2, by rw [h2]; simp, h3.1, h3.2.1, h3.2.2⟩

/-- C4 witness: a world whose scraper exits 0 with no results file fails on
the missing-results branch and the command exits non-zero. -/
theorem missing_results_file_spec_witness :
    (run_scraper "https://example.com" false false ["out"]
        { sampleWorld with resultsFile := none }).path = .missingResults
    ∧ (scrape "https://example.com" false ["out"] false
        { sampleWorld with resultsFile := none }).exitNonZero = true := by
  have h := missing_results_file_spec "https://example.com" false false
    ["out"] { sampleWorld with resultsFile := none } ⟨"", "", rfl⟩ rfl
  exact ⟨h.2.1, h.2.2.2.2.2⟩

/-- C3: for every invocation, each of the enumerated failure categories is
terminal with a non-zero exit, nothing is displayed — no partial result is
ever presented — and the scraper is invoked at most once (no retry). -/
theorem scrape_all_or_nothing (url : String) (download debug : Bool)
    (output : List String) (w : World)
    (h : enumeratedFailure url download w) :
    (scrape url download output debug w).exitNonZero = true
    ∧ (scrape url download output debug w).displayed = none
    ∧ (scrape url download output debug w).summaryShown = none
    ∧ (scrape url download output debug w).scraperInvocations ≤ 1 := by
  by_cases hu : validURL url = false
  · simp [scrape, hu]
  · by_cases hn : w.nodeInstalled = false
    · simp [scrape, hu, hn]
    · by_cases hd : w.npmDepsInstalled = true
      · have hres : (run_scraper url download debug output w).result
            = none := by
          apply run_result_none_of_failure
          rcases h with h | h | h | h | h | h | h | h
          · exact absurd h hu
          · exact absurd h hn
          · exact absurd h.1 (by simp [hd])
          · exact Or.inl h
          · exact Or.inr (Or.inl h)
          · exact Or.inr (Or.inr (Or.inl h))
          · exact Or.inr (Or.inr (Or.inr (Or.inl h)))
          · exact Or.inr (Or.inr (Or.inr (Or.inr h)))
        simp [scrape, hu, hn, hd, scrape_after_deps, hres]
      · by_cases hio :
          (install_npm_dependencies w.scraperDir w.installOutcome).ok = true
        · have hres : (run_scraper url download debug output w).result
              = none := by
            apply run_result_none_of_failure
            rcases h with h | h | h | h | h | h | h | h
            · exact absurd h hu
            · exact absurd h hn
            · exact absurd h.2
                ((install_ok_iff w.scraperDir w.installOutcome).mp hio)
            · exact Or.inl h
            · exact Or.inr (Or.inl h)
            · exact Or.inr (Or.inr (Or.inl h))
            · exact Or.inr (Or.inr (Or.inr (Or.inl h)))
            · exact Or.inr (Or.inr (Or.inr (Or.inr h)))
          simp [scrape, hu, hn, hd, hio, scrape_after_deps, hres]
        · simp [scrape, hu, hn, hd, hio]

/-- C3 witness: a malformed-URL run exits non-zero displaying nothing and
invokes the scraper zero times. -/
theorem scrape_all_or_nothing_witness :
    (scrape "notaurl" false [] false sampleWorld).exitNonZero = true
    ∧ (scrape "notaurl" false [] false sampleWorld).displayed = none
    ∧ (scrape "notaurl" false [] false sampleWorld).scraperInvocations
        ≤ 1 := by
  have h := scrape_all_or_nothing "notaurl" false false [] sampleWorld
    (Or.inl (by decide))
  exact ⟨h.1, h.2.1, h.2.2.2⟩

/-- C7: no field among title, cards, files, images, links is required — with
all of them absent the display succeeds with placeholder title and zero
counts; on the concrete board example with download off the summary reports
one file, zero images, zero links; and with the download flag off the
relocation helper is never invoked. -/
theorem display_tolerates_absent_fields (kvs : List (String × JValue))
    (outputDir : List String) (downloaded : Bool)
    (habsent : ∀ k, k ∈ (["title", "cards", "files", "images", "links"] :
        List String) → jGet kvs k = none) :
    (display_results (.obj kvs) outputDir downloaded =
      some { titleShown := .str "Unknown Page", cardsRow := none,
             filesRow := 0, imagesRow := 0, linksRow := 0,
             fileTree := none, note := .silent })
    ∧ (display_results
        (.obj [("title", .str "Board X"),
               ("files", .arr [.obj [("name", .str "a.pdf")]]),
               ("images", .arr []), ("links", .arr [])]) outputDir false =
      some { titleShown := .str "Board X", cardsRow := none, filesRow := 1,
             imagesRow := 0, linksRow := 0,
             fileTree := some [.str "a.pdf"], note := .tip })
    ∧ (∀ (url : String) (debug : Bool) (out : List String) (w : World),
        (run_scraper url false debug out w).relocationAttempted = false) := by
  refine ⟨?_, ?_, ?_⟩
  · have ht := habsent "title" (by simp)
    have hc := habsent "cards" (by simp)
    have hf := habsent "files" (by simp)
    have hi := habsent "images" (by simp)
    have hl := habsent "links" (by simp)
    simp [display_results, fieldOr, ht, hc, hf, hi, hl, pyTruthy, pyLen]
  · rfl
  · intro url debug out w
    cases hb : (run_scraper url false debug out w).relocationAttempted
    · rfl
    · exact Bool.noConfusion
        ((run_scraper_relocation_iff url false debug out w).mp hb).1

/-- C7 witness: the empty parsed object displays with the placeholder title
and all counts zero. -/
theorem display_tolerates_absent_fields_witness :
    display_results (.obj []) [] false =
      some { titleShown := .str "Unknown Page", cardsRow := none,
             filesRow := 0, imagesRow := 0, linksRow := 0,
             fileTree := none, note := .silent } :=
  (display_tolerates_absent_fields [] [] false (fun _ _ => rfl)).1

/-- C10: every failure inside the invocation is caught and converted to a
None result; relocation is attempted exactly when download was requested and
the subprocess exited 0 and the results file existed and parsed; and
whenever relocation was not attempted the downloads directory is left
untouched. -/
theorem run_scraper_failure_containment (url : String) (download debug : Bool)
    (output : List String) (w : World) :
    ((run_scraper url download debug output w).result = none
      ∨ (run_scraper url download debug output w).path = .success)
    ∧ (∀ m, w.scraperOutcome = .raised m →
        (run_scraper url download debug output w).result = none
        ∧ (run_scraper url download debug output w).path = .exceptionCaught)
    ∧ (∀ m, w.resultsFile = some (.malformed m) →
        (run_scraper url download debug output w).result = none)
    ∧ ((run_scraper url download debug output w).relocationAttempted = true ↔
        (download = true ∧ (∃ o e, w.scraperOutcome = .completed 0 o e)
          ∧ (∃ v, w.resultsFile = some (.parsed v))))
    ∧ ((run_scraper url download debug output w).relocationAttempted = false →
        (run_scraper url download debug output w).downloadsAfter
          = w.fs.downloads) := by
  refine ⟨?_, ?_, ?_, run_scraper_relocation_iff url download debug output w,
    run_scraper_untouched url download debug output w⟩
  · unfold run_scraper
    rcases w.scraperOutcome with ⟨rc, o, e⟩ | _ | m
    · by_cases hrc : rc = 0
      · subst hrc
        rcases w.resultsFile with _ | mv
        · simp
        · rcases mv with m | v
          · simp
          · cases download
            · simp
            · rcases w.moveRaises with _ | m
              · simp [move_downloads_to_output_eq]
              · simp
      · simp [hrc]
    · simp
    · simp
  · intro m hm
    constructor <;> simp [run_scraper, hm]
  · intro m hm
    unfold run_scraper
    rcases w.scraperOutcome with ⟨rc, o, e⟩ | _ | m'
    · by_cases hrc : rc = 0
      · subst hrc
        rw [hm]
        simp
      · simp [hrc]
    · simp
    · simp

/-- C10 witness: on the sample world a download run attempts relocation, a
non-download run leaves the downloads directory untouched, and a raised
subprocess error is converted to a None result. -/
theorem run_scraper_failure_containment_witness :
    (run_scraper "https://example.com" true false ["out"]
        sampleWorld).relocationAttempted = true
    ∧ (run_scraper "https://example.com" false false ["out"]
        sampleWorld).downloadsAfter = sampleWorld.fs.downloads
    ∧ (run_scraper "https://example.com" false false ["out"]
        { sampleWorld with scraperOutcome := .raised "boom" }).result
        = none := by
  have h1 := run_scraper_failure_containment "https://example.com" true false
    ["out"] sampleWorld
  have h2 := run_scraper_failure_containment "https://example.com" false false
    ["out"] sampleWorld
  have h3 := run_scraper_failure_containment "https://example.com" false false
    ["out"] { sampleWorld with scraperOutcome := .raised "boom" }
  refine ⟨?_, h2.2.2.2.2 rfl, (h3.2.1 "boom" rfl).1⟩
  exact h1.2.2.2.1.mpr ⟨rfl, ⟨"", "", rfl⟩, ⟨.obj [("title", .str "T")], rfl⟩⟩

end WebScraperCLI
